import Mathlib

/-!
Verification development for the BaselHack ticket bot (`bot.py`).

The bot polls a web shop page for a sold-out marker string and relays the
result to an operator over Telegram and email.  We shallowly embed the
functions of `bot.py` that the specification talks about:

* `check_tickets`  — the poller (HTTP fetch abstracted to an `Except` input);
* `classify`       — the tri-state outcome abstraction of `perform_check`'s
                     branching (`Failure` / `TicketsAvailable` / `SoldOut`);
* `perform_check`  — the tick handler: which chat messages are sent and which
                     email sends are attempted, plus the uncaught exception
                     (if any) escaping the tick;
* the five command handlers `start`, `stop`, `check_now`,
  `toggle_silent_mode`, `test_email` over an explicit bot state.

HTTP responses are modelled as a status code, the list of text nodes of the
parsed markup (what `BeautifulSoup(...).find(string=...)` scans), and the raw
body text.  Network-level errors (`httpx.RequestError`) are the `.error` side
of the fetch input.  Mail transport is modelled by a `MailEnv` saying whether
the configuration is complete and whether the SMTP send raises.
-/

namespace BaselBot

/-- The fixed sold-out marker, `SOLD_OUT_TEXT` in `bot.py`. -/
def SOLD_OUT_TEXT : String := "Currently all event tickets are sold-out!"

/-- `starts_with pat cs`: the char list `cs` begins with `pat`. -/
def starts_with : List Char → List Char → Bool
  | [], _ => true
  | _ :: _, [] => false
  | p :: ps, c :: cs => (p = c) && starts_with ps cs

/-- `contains_chars pat cs`: `pat` occurs contiguously somewhere in `cs`. -/
def contains_chars (pat : List Char) : List Char → Bool
  | [] => starts_with pat []
  | c :: cs => starts_with pat (c :: cs) || contains_chars pat cs

/-- Model of the Python substring test `pat in hay` used by the
`lambda text: SOLD_OUT_TEXT in text` search predicate. -/
def str_contains (hay pat : String) : Bool :=
  contains_chars pat.toList hay.toList

/-- An HTTP response as the poller sees it: `status_code` and `text` are
the `httpx` response fields; `textNodes` are the text nodes of the parsed
markup, i.e. the strings that `BeautifulSoup(response.text, 'lxml')` exposes
to `soup.find(string=...)`. -/
structure Response where
  status_code : Nat
  textNodes : List String
  text : String
deriving Repr, DecidableEq

/-- Model of `soup.find(string=lambda text: SOLD_OUT_TEXT in text)`:
the first text node containing the marker, if any. -/
def find_sold_out_string (nodes : List String) : Option String :=
  nodes.find? (fun t => str_contains t SOLD_OUT_TEXT)

/-- `check_tickets` from `bot.py`, with the network fetch abstracted to an
`Except String Response` input (`.error e` = `httpx.RequestError` with text
`e`).  Returns the `(status_code, tickets_available, content)` triple the
Python function returns; the `except` branch returns `(None, False, str(e))`
instead of raising, and on a 200 response `tickets_available` is true exactly
when no text node contains the marker. -/
def check_tickets : Except String Response → Option Nat × Bool × String
  | .error e => (none, false, e)
  | .ok response =>
      let tickets_available :=
        if response.status_code = 200 then
          (find_sold_out_string response.textNodes).isNone
        else false
      (some response.status_code, tickets_available, response.text)

/-- The spec's `CheckOutcome` tagged variant. -/
inductive CheckOutcome where
  | failure (status_code : Option Nat) (detail : String)
  | ticketsAvailable
  | soldOut (status_code : Nat)
deriving Repr, DecidableEq

/-- The outcome classification implicit in `perform_check`'s branching on the
`check_tickets` triple: `status_code is None or status_code != 200` is the
failure case (the detail slot carries the third tuple component — the error
text for a network error, the body for an HTTP error), then
`tickets_available` selects between `TicketsAvailable` and `SoldOut`. -/
def classify : Option Nat × Bool × String → CheckOutcome
  | (none, _, content) => .failure none content
  | (some code, tickets_available, content) =>
      if code ≠ 200 then .failure (some code) content
      else if tickets_available then .ticketsAvailable
      else .soldOut code

/-- Python `status_code or 'Request Failed'`: `None` and `0` are falsy. -/
def status_or_request_failed : Option Nat → String
  | none => "Request Failed"
  | some code => if code = 0 then "Request Failed" else toString code

/-- The `error_details` string built at the top of `perform_check`'s failure
branch: `f"HTTP Status: {status_code or 'Request Failed'}"`. -/
def error_details_for (status_code : Option Nat) : String :=
  "HTTP Status: " ++ status_or_request_failed status_code

/-- The alert chat message of `perform_check`'s failure branch. -/
def failure_chat_message (now details : String) : String :=
  "🚨 **Bot Check FAILED** 🚨\n\n**Time:** `" ++ now ++ "`\n**Details:** `"
    ++ details ++ "`"

/-- Subject of the failure alert email. -/
def failure_email_subject : String := "[Alert] BaselHack Ticket Bot - Check FAILED"

/-- Body of the failure alert email (`content[:500]` is the snippet). -/
def failure_email_body (now details snippet : String) : String :=
  "The bot failed to check for tickets at " ++ now ++ ".\n\n" ++ details
    ++ "\n\nResponse snippet:\n" ++ snippet

/-- The celebratory chat message of the tickets-available branch. -/
def success_chat_message : String :=
  "🎉 **TICKETS ARE AVAILABLE\\!** 🎉\n\nGo to https://www\\.baselhack\\.ch/shop"

/-- Subject of the tickets-available email. -/
def success_email_subject : String := "[SUCCESS] BaselHack Tickets Available!"

/-- Body of the tickets-available email. -/
def success_email_body : String :=
  "Tickets for BaselHack are available! Check the website now: https://www.baselhack.ch/shop"

/-- The status-report chat message of the still-sold-out branch. -/
def sold_out_chat_message (now : String) (status_code : Nat) : String :=
  "✅ **Ticket Check Report**\n\n**Time:** `" ++ now ++ "`\n**HTTP Status:** `"
    ++ toString status_code ++ "`\n**Tickets Available:** `False`"

/-- Mail-transport environment: whether the email configuration
(host/port/user/password/recipient) is complete, and whether the SMTP send
raises (`some e` = the exception text it raises with). -/
structure MailEnv where
  config_complete : Bool
  transport_error : Option String
deriving Repr, DecidableEq

/-- `send_email_notification` from `bot.py`: with incomplete configuration it
logs and returns (no exception); otherwise a transport failure is re-raised
to the caller (`raise` under the `except` clause), modelled as `.error`. -/
def send_email_notification (env : MailEnv) (_subject _body : String) :
    Except String Unit :=
  if env.config_complete = false then .ok ()
  else
    match env.transport_error with
    | some e => .error e
    | none => .ok ()

/-- `context.bot_data.get('is_silent', False)`: the silent flag as read by
`perform_check` and `toggle_silent_mode`; `none` models the key being absent
(read before initialization). -/
def read_is_silent (bot_data : Option Bool) : Bool :=
  bot_data.getD false

/-- The observable effects of one tick: chat messages sent (in order) and
email sends attempted, i.e. `(subject, body)` pairs passed to
`send_email_notification`. -/
structure Effects where
  chatMessages : List String
  emailAttempts : List (String × String)
deriving Repr, DecidableEq

/-- `perform_check` from `bot.py`.  Returns the effects of the tick together
with the uncaught exception escaping it, if any: `perform_check` wraps none
of its `send_email_notification` calls in `try`, so a transport error raised
there propagates out of the tick (second component `some e`).  The chat
message of a branch is sent before its email attempt, so it is recorded even
when the email send then raises. -/
def perform_check (env : MailEnv) (bot_data : Option Bool) (now : String)
    (fetch : Except String Response) : Effects × Option String :=
  let is_silent := read_is_silent bot_data
  let result := check_tickets fetch
  let status_code := result.1
  let tickets_available := result.2.1
  let content := result.2.2
  let failure_branch := fun (details : String) =>
    let subject := failure_email_subject
    let body := failure_email_body now details (content.take 500)
    match send_email_notification env subject body with
    | .ok _ =>
        ((⟨[failure_chat_message now details], [(subject, body)]⟩ : Effects),
         (none : Option String))
    | .error e =>
        (⟨[failure_chat_message now details], [(subject, body)]⟩, some e)
  match status_code with
  | none => failure_branch (error_details_for none)
  | some code =>
      if code ≠ 200 then failure_branch (error_details_for (some code))
      else if tickets_available then
        match send_email_notification env success_email_subject success_email_body with
        | .ok _ =>
            (⟨[success_chat_message], [(success_email_subject, success_email_body)]⟩,
             none)
        | .error e =>
            (⟨[success_chat_message], [(success_email_subject, success_email_body)]⟩,
             some e)
      else
        if is_silent = false then
          (⟨[sold_out_chat_message now code], []⟩, none)
        else
          (⟨[], []⟩, none)

/-- Static configuration read from the environment: `TELEGRAM_CHAT_ID` (the
single authorized operator identity, a string) and `CHECK_INTERVAL_SECONDS`. -/
structure Config where
  authorized_chat_id : String
  check_interval_seconds : Int
deriving Repr, DecidableEq

/-- A job in the job queue: `run_repeating(..., interval=interval,
name=str(chat_id))`. -/
structure Job where
  name : String
  interval : Int
deriving Repr, DecidableEq

/-- The mutable bot state the handlers touch: the job queue and the
`is_silent` entry of `bot_data` (`none` = key absent). -/
structure BotState where
  jobs : List Job
  bot_data : Option Bool
deriving Repr, DecidableEq

/-- Result of one command handler invocation: replies sent to the chat, the
state afterwards, how many email sends were attempted and how many immediate
ticket checks were performed. -/
structure CmdResult where
  replies : List String
  state : BotState
  email_attempts : Nat
  checks_performed : Nat
deriving Repr, DecidableEq

/-- The fixed rejection reply of every handler's authorization check. -/
def not_authorized_reply : String := "You are not authorized to use this bot."

/-- Accumulate the decimal digits of `cs`. -/
def digits_to_nat (cs : List Char) : Nat :=
  cs.foldl (fun acc c => acc * 10 + (c.toNat - 48)) 0

/-- Strip leading and trailing whitespace from a char list. -/
def trim_chars (cs : List Char) : List Char :=
  ((cs.dropWhile Char.isWhitespace).reverse.dropWhile Char.isWhitespace).reverse

/-- Model of Python `int(s)` on a string: optional surrounding whitespace,
optional sign, then decimal digits; anything else raises `ValueError`
(`none`).  (Pythonic underscore digit separators are not modelled; no claim
depends on them.) -/
def py_int (s : String) : Option Int :=
  let cs := trim_chars s.toList
  match cs with
  | '+' :: rest =>
      if !rest.isEmpty && rest.all Char.isDigit then
        some ((digits_to_nat rest : Nat) : Int)
      else none
  | '-' :: rest =>
      if !rest.isEmpty && rest.all Char.isDigit then
        some (-((digits_to_nat rest : Nat) : Int))
      else none
  | _ =>
      if !cs.isEmpty && cs.all Char.isDigit then
        some ((digits_to_nat cs : Nat) : Int)
      else none

/-- The `start` handler: reject unauthorized identities, else remove every
job named `str(chat_id)`, compute the interval (`int(context.args[0])` when
args are present and parse, the configured default otherwise — the
`except (IndexError, ValueError)` fallback), and append the new repeating
job. -/
def start (cfg : Config) (chat_id : Int) (args : List String) (s : BotState) :
    CmdResult :=
  if toString chat_id ≠ cfg.authorized_chat_id then
    ⟨[not_authorized_reply], s, 0, 0⟩
  else
    let name := toString chat_id
    let jobs := s.jobs.filter (fun j => j.name ≠ name)
    let interval :=
      match args with
      | [] => cfg.check_interval_seconds
      | a :: _ => (py_int a).getD cfg.check_interval_seconds
    ⟨["Bot started! Checking every " ++ toString interval ++ " seconds."],
     ⟨jobs ++ [⟨name, interval⟩], s.bot_data⟩, 0, 0⟩

/-- The `stop` handler: reject unauthorized identities; with no job named
`str(chat_id)` reply "not running" and change nothing; otherwise remove all
such jobs and reply "stopped". -/
def stop (cfg : Config) (chat_id : Int) (s : BotState) : CmdResult :=
  if toString chat_id ≠ cfg.authorized_chat_id then
    ⟨[not_authorized_reply], s, 0, 0⟩
  else
    let name := toString chat_id
    let current_jobs := s.jobs.filter (fun j => j.name = name)
    if current_jobs.isEmpty then
      ⟨["Bot is not currently running."], s, 0, 0⟩
    else
      ⟨["Bot stopped."], ⟨s.jobs.filter (fun j => j.name ≠ name), s.bot_data⟩, 0, 0⟩

/-- The `check_now` handler: reject unauthorized identities, else announce and
perform one immediate check (the `perform_check` call through the dummy job;
its notification effects are those of `perform_check` above). -/
def check_now (cfg : Config) (chat_id : Int) (s : BotState) : CmdResult :=
  if toString chat_id ≠ cfg.authorized_chat_id then
    ⟨[not_authorized_reply], s, 0, 0⟩
  else
    ⟨["Performing an immediate check..."], s, 0, 1⟩

/-- The `toggle_silent_mode` handler: reject unauthorized identities, else
flip the defaulted `is_silent` flag, store the new value and report it. -/
def toggle_silent_mode (cfg : Config) (chat_id : Int) (s : BotState) : CmdResult :=
  if toString chat_id ≠ cfg.authorized_chat_id then
    ⟨[not_authorized_reply], s, 0, 0⟩
  else
    let new_state := !(read_is_silent s.bot_data)
    let status_text := if new_state then "ON" else "OFF"
    ⟨["Silent mode is now **" ++ status_text
        ++ "**.\n\nYou will only be notified if tickets are found or if a check fails."],
     ⟨s.jobs, some new_state⟩, 0, 0⟩

/-- Subject of the test email. -/
def test_email_subject : String := "[Test] BaselHack Ticket Bot"

/-- Body of the test email. -/
def test_email_body : String :=
  "This is a test email to confirm your email notification settings are working correctly."

/-- The `test_email` handler: reject unauthorized identities, else attempt
one email send inside `try`, reporting success or the caught exception. -/
def test_email (cfg : Config) (env : MailEnv) (chat_id : Int) (s : BotState) :
    CmdResult :=
  if toString chat_id ≠ cfg.authorized_chat_id then
    ⟨[not_authorized_reply], s, 0, 0⟩
  else
    match send_email_notification env test_email_subject test_email_body with
    | .ok _ =>
        ⟨["Sending a test email...",
          "✅ Test email sent successfully! Please check your inbox."], s, 1, 0⟩
    | .error e =>
        ⟨["Sending a test email...",
          "❌ Failed to send test email. Check the logs for details:\n`" ++ e ++ "`"],
         s, 1, 0⟩

/-! ### Helper lemmas -/

/-- Filtering the kept-jobs list (names ≠ `n`) for name `n` yields nothing. -/
lemma filter_ne_filter_eq_nil (l : List Job) (n : String) :
    ((l.filter (fun j => j.name ≠ n)).filter (fun j => j.name = n)) = [] := by
  induction l with
  | nil => rfl
  | cons j t ih =>
      by_cases hj : j.name = n <;> simp [List.filter, hj, ih]

/-- Unfolding of an authorized `stop` into its two branches. -/
lemma stop_eq (cfg : Config) (chat_id : Int) (s : BotState)
    (h : toString chat_id = cfg.authorized_chat_id) :
    stop cfg chat_id s
      = if (s.jobs.filter (fun j => j.name = toString chat_id)).isEmpty then
          ⟨["Bot is not currently running."], s, 0, 0⟩
        else
          ⟨["Bot stopped."],
           ⟨s.jobs.filter (fun j => j.name ≠ toString chat_id), s.bot_data⟩, 0, 0⟩ := by
  simp [stop, h]

/-- The job list after an authorized `start`: the old jobs named
`str(chat_id)` removed, the new job appended. -/
lemma start_state_jobs (cfg : Config) (chat_id : Int) (args : List String)
    (s : BotState) (h : toString chat_id = cfg.authorized_chat_id) :
    (start cfg chat_id args s).state.jobs
      = s.jobs.filter (fun j => j.name ≠ toString chat_id)
        ++ [⟨toString chat_id,
             match args with
             | [] => cfg.check_interval_seconds
             | a :: _ => (py_int a).getD cfg.check_interval_seconds⟩] := by
  simp [start, h]

/-! ### Claims -/

/-- C5 (code bug evidence): a mail transport failure during a scheduled tick
is NOT caught inside the scheduled path.  `perform_check` calls
`send_email_notification` with no `try`, and that function re-raises
transport errors, so the exception escapes the tick (second component of
`perform_check` is `some ...` rather than `none`): here a tick whose check
fails with a network error, with complete mail configuration and an SMTP send
that raises, ends with the SMTP exception propagating out of the tick. -/
theorem scheduled_email_failure_escapes_tick :
    (perform_check ⟨true, some "SMTPAuthenticationError"⟩ none "2026-10-12 00:00:00"
        (.error "connection refused")).2 = some "SMTPAuthenticationError" := rfl

/-- C6: every command handler invoked by an identity other than the
configured authorized operator replies with the fixed not-authorized message
and has no other effect: the state (jobs and silent flag) is returned
unchanged, no email send is attempted and no check is performed. -/
theorem unauthorized_command_rejected (cfg : Config) (env : MailEnv)
    (chat_id : Int) (args : List String) (s : BotState)
    (h : toString chat_id ≠ cfg.authorized_chat_id) :
    start cfg chat_id args s = ⟨[not_authorized_reply], s, 0, 0⟩ ∧
    stop cfg chat_id s = ⟨[not_authorized_reply], s, 0, 0⟩ ∧
    check_now cfg chat_id s = ⟨[not_authorized_reply], s, 0, 0⟩ ∧
    toggle_silent_mode cfg chat_id s = ⟨[not_authorized_reply], s, 0, 0⟩ ∧
    test_email cfg env chat_id s = ⟨[not_authorized_reply], s, 0, 0⟩ := by
  refine ⟨?_, ?_, ?_, ?_, ?_⟩ <;>
    simp [start, stop, check_now, toggle_silent_mode, test_email, h]

/-- C6 witness: identity 7 against authorized id "42". -/
theorem unauthorized_command_rejected_witness :
    start ⟨"42", 1200⟩ 7 [] ⟨[], none⟩ = ⟨[not_authorized_reply], ⟨[], none⟩, 0, 0⟩ ∧
    stop ⟨"42", 1200⟩ 7 ⟨[], none⟩ = ⟨[not_authorized_reply], ⟨[], none⟩, 0, 0⟩ ∧
    check_now ⟨"42", 1200⟩ 7 ⟨[], none⟩ = ⟨[not_authorized_reply], ⟨[], none⟩, 0, 0⟩ ∧
    toggle_silent_mode ⟨"42", 1200⟩ 7 ⟨[], none⟩
      = ⟨[not_authorized_reply], ⟨[], none⟩, 0, 0⟩ ∧
    test_email ⟨"42", 1200⟩ ⟨true, none⟩ 7 ⟨[], none⟩
      = ⟨[not_authorized_reply], ⟨[], none⟩, 0, 0⟩ :=
  unauthorized_command_rejected ⟨"42", 1200⟩ ⟨true, none⟩ 7 [] ⟨[], none⟩ (by decide)

/-- C7: an authorized `start` first removes every job named after the
operator and then adds one, so after a `start` — and after a second `start`
on the resulting state — exactly one job for that operator exists. -/
theorem start_twice_single_timer (cfg : Config) (chat_id : Int)
    (args args2 : List String) (s : BotState)
    (h : toString chat_id = cfg.authorized_chat_id) :
    ((start cfg chat_id args s).state.jobs.filter
        (fun j => j.name = toString chat_id)).length = 1 ∧
    ((start cfg chat_id args2 (start cfg chat_id args s).state).state.jobs.filter
        (fun j => j.name = toString chat_id)).length = 1 := by
  constructor <;>
    rw [start_state_jobs cfg chat_id _ _ h, List.filter_append,
      filter_ne_filter_eq_nil] <;> simp

/-- C7 witness: starting twice for operator 42 from a state already holding a
timer for 42 and one for another operator. -/
theorem start_twice_single_timer_witness :
    ((start ⟨"42", 1200⟩ 42 [] ⟨[⟨"42", 7⟩, ⟨"9", 3⟩], none⟩).state.jobs.filter
        (fun j => j.name = toString (42 : Int))).length = 1 ∧
    ((start ⟨"42", 1200⟩ 42 ["5"]
        (start ⟨"42", 1200⟩ 42 [] ⟨[⟨"42", 7⟩, ⟨"9", 3⟩], none⟩).state).state.jobs.filter
        (fun j => j.name = toString (42 : Int))).length = 1 :=
  start_twice_single_timer ⟨"42", 1200⟩ 42 [] ["5"] ⟨[⟨"42", 7⟩, ⟨"9", 3⟩], none⟩ (by decide)

/-- C8 counterexample: the operator can supply `0` as the interval argument;
`int("0")` parses, the created job's interval is `0`, which is not positive —
the code does not enforce positivity of the interval. -/
theorem start_interval_counterexample :
    (start ⟨"42", 1200⟩ 42 ["0"] ⟨[], none⟩).state.jobs = [⟨"42", 0⟩] ∧
    ¬ ((0 : Int) > 0) := ⟨by decide, by decide⟩

/-- C8 (amended): the interval of the job created by an authorized `start` is
the integer value of the first argument when that argument parses as an
integer (it may be zero or negative); otherwise — no argument, or an argument
`int()` rejects — it is the configured default.  Positivity is not enforced. -/
theorem start_interval_amended (cfg : Config) (chat_id : Int)
    (args : List String) (s : BotState)
    (h : toString chat_id = cfg.authorized_chat_id) :
    (start cfg chat_id args s).state.jobs.getLast?
      = some ⟨toString chat_id,
              ((args.head?.bind py_int).getD cfg.check_interval_seconds)⟩ := by
  rw [start_state_jobs cfg chat_id _ _ h]
  cases args <;> simp [Option.bind]

/-- C8 witness: authorized start with argument "-5" creates interval -5. -/
theorem start_interval_amended_witness :
    (start ⟨"42", 1200⟩ 42 ["-5"] ⟨[], none⟩).state.jobs.getLast?
      = some ⟨toString (42 : Int),
              (((["-5"] : List String).head?.bind py_int).getD 1200)⟩ :=
  start_interval_amended ⟨"42", 1200⟩ 42 ["-5"] ⟨[], none⟩ (by decide)

/-- C9: an authorized `stop` with no job named after the operator replies
"not running" and changes nothing; with such a job present it replies
"stopped", afterwards no job for the operator remains, other jobs and the
silent flag are untouched. -/
theorem stop_running_or_not (cfg : Config) (chat_id : Int) (s : BotState)
    (h : toString chat_id = cfg.authorized_chat_id) :
    (s.jobs.filter (fun j => j.name = toString chat_id) = [] →
      stop cfg chat_id s = ⟨["Bot is not currently running."], s, 0, 0⟩) ∧
    (s.jobs.filter (fun j => j.name = toString chat_id) ≠ [] →
      (stop cfg chat_id s).replies = ["Bot stopped."] ∧
      (stop cfg chat_id s).state.jobs.filter (fun j => j.name = toString chat_id) = [] ∧
      (stop cfg chat_id s).state.jobs = s.jobs.filter (fun j => j.name ≠ toString chat_id) ∧
      (stop cfg chat_id s).state.bot_data = s.bot_data) := by
  constructor
  · intro hempty
    rw [stop_eq cfg chat_id s h, if_pos (List.isEmpty_iff.mpr hempty)]
  · intro hne
    have hns : ¬ ((s.jobs.filter (fun j => j.name = toString chat_id)).isEmpty = true) := by
      simp [List.isEmpty_iff, hne]
    rw [stop_eq cfg chat_id s h, if_neg hns]
    exact ⟨rfl, filter_ne_filter_eq_nil s.jobs (toString chat_id), rfl, rfl⟩

/-- C9 witness: stopping with no timer, and stopping with a timer present. -/
theorem stop_running_or_not_witness :
    stop ⟨"42", 1200⟩ 42 ⟨[⟨"9", 3⟩], some true⟩
      = ⟨["Bot is not currently running."], ⟨[⟨"9", 3⟩], some true⟩, 0, 0⟩ ∧
    (stop ⟨"42", 1200⟩ 42 ⟨[⟨"42", 7⟩], some true⟩).replies = ["Bot stopped."] :=
  ⟨(stop_running_or_not ⟨"42", 1200⟩ 42 ⟨[⟨"9", 3⟩], some true⟩ (by decide)).1 (by decide),
   ((stop_running_or_not ⟨"42", 1200⟩ 42 ⟨[⟨"42", 7⟩], some true⟩ (by decide)).2
      (by decide)).1⟩

/-- C10: the silent flag reads `false` when the `is_silent` key is absent
(pre-initialization defaulted lookup) and when initialized to `false`; an
authorized toggle stores the negation of the read value and reports the new
value ("ON" exactly when the new value is true); two consecutive toggles
restore the flag as read. -/
theorem toggle_silent_involution (cfg : Config) (chat_id : Int) (s : BotState)
    (h : toString chat_id = cfg.authorized_chat_id) :
    read_is_silent none = false ∧
    read_is_silent (some false) = false ∧
    read_is_silent (toggle_silent_mode cfg chat_id s).state.bot_data
      = !(read_is_silent s.bot_data) ∧
    (toggle_silent_mode cfg chat_id s).replies
      = ["Silent mode is now **"
          ++ (if read_is_silent s.bot_data then "OFF" else "ON")
          ++ "**.\n\nYou will only be notified if tickets are found or if a check fails."] ∧
    read_is_silent (toggle_silent_mode cfg chat_id
        (toggle_silent_mode cfg chat_id s).state).state.bot_data
      = read_is_silent s.bot_data := by
  refine ⟨rfl, rfl, ?_, ?_, ?_⟩ <;>
    cases hb : s.bot_data.getD false <;>
      simp [toggle_silent_mode, read_is_silent, h, hb]

/-- C10 witness: toggling from the uninitialized state. -/
theorem toggle_silent_involution_witness :
    read_is_silent none = false ∧
    read_is_silent (some false) = false ∧
    read_is_silent (toggle_silent_mode ⟨"42", 1200⟩ 42 ⟨[], none⟩).state.bot_data
      = !(read_is_silent (none : Option Bool)) ∧
    (toggle_silent_mode ⟨"42", 1200⟩ 42 ⟨[], none⟩).replies
      = ["Silent mode is now **"
          ++ (if read_is_silent (none : Option Bool) then "OFF" else "ON")
          ++ "**.\n\nYou will only be notified if tickets are found or if a check fails."] ∧
    read_is_silent (toggle_silent_mode ⟨"42", 1200⟩ 42
        (toggle_silent_mode ⟨"42", 1200⟩ 42 ⟨[], none⟩).state).state.bot_data
      = read_is_silent (none : Option Bool) :=
  toggle_silent_involution ⟨"42", 1200⟩ 42 ⟨[], none⟩ (by decide)

/-- C1: on an HTTP 200 response, the outcome is `SoldOut` exactly when some
text node of the parsed body contains the fixed sold-out marker, and
`TicketsAvailable` exactly when the marker is absent from every text node of
the body's text content. -/
theorem check_200_marker_classification (r : Response) (h : r.status_code = 200) :
    (classify (check_tickets (.ok r)) = .soldOut 200 ↔
      ∃ t ∈ r.textNodes, str_contains t SOLD_OUT_TEXT = true) ∧
    (classify (check_tickets (.ok r)) = .ticketsAvailable ↔
      ∀ t ∈ r.textNodes, str_contains t SOLD_OUT_TEXT = false) := by
  obtain ⟨sc, nodes, text⟩ := r
  simp only at h
  subst h
  constructor
  · rw [show classify (check_tickets (.ok ⟨200, nodes, text⟩))
        = (if (find_sold_out_string nodes).isNone then .ticketsAvailable else .soldOut 200)
      from by simp [check_tickets, classify]]
    cases hf : (find_sold_out_string nodes).isNone <;>
      simp [find_sold_out_string, List.find?_isSome, Option.isNone_iff_eq_none,
        List.find?_eq_none] at hf ⊢ <;> simpa using hf
  · rw [show classify (check_tickets (.ok ⟨200, nodes, text⟩))
        = (if (find_sold_out_string nodes).isNone then .ticketsAvailable else .soldOut 200)
      from by simp [check_tickets, classify]]
    cases hf : (find_sold_out_string nodes).isNone <;>
      simp [find_sold_out_string, Option.isNone_iff_eq_none,
        List.find?_eq_none] at hf ⊢ <;> simpa using hf

/-- C1 witness: a 200 response whose only text node is the marker itself is
classified `SoldOut`. -/
theorem check_200_marker_classification_witness :
    classify (check_tickets (.ok ⟨200, [SOLD_OUT_TEXT], "body"⟩)) = .soldOut 200 :=
  (check_200_marker_classification ⟨200, [SOLD_OUT_TEXT], "body"⟩ rfl).1.mpr
    ⟨SOLD_OUT_TEXT, by simp, by decide⟩

/-- C2: a poll never raises.  A non-200 HTTP response (status codes are
nonzero) is classified as `Failure` carrying that status code, the
`error_details` string attached to its notifications is `"HTTP Status: "`
followed by the code, and the failure chat message carries it; a
network-level error is classified as `Failure` with no status code and the
error text in the detail slot. -/
theorem check_failure_outcomes (r : Response) (e now : String) (env : MailEnv)
    (bot_data : Option Bool) (hne : r.status_code ≠ 200) (h0 : r.status_code ≠ 0) :
    classify (check_tickets (.ok r)) = .failure (some r.status_code) r.text ∧
    error_details_for (some r.status_code) = "HTTP Status: " ++ toString r.status_code ∧
    (perform_check env bot_data now (.ok r)).1.chatMessages
      = [failure_chat_message now ("HTTP Status: " ++ toString r.status_code)] ∧
    classify (check_tickets (.error e)) = .failure none e := by
  refine ⟨?_, ?_, ?_, rfl⟩
  · simp [check_tickets, classify, hne]
  · simp [error_details_for, status_or_request_failed, h0]
  · simp only [perform_check, check_tickets, read_is_silent,
      error_details_for, status_or_request_failed]
    simp only [hne, if_neg, ite_false, h0]
    cases hs : send_email_notification env failure_email_subject
        (failure_email_body now ("HTTP Status: " ++ toString r.status_code)
          (r.text.take 500)) <;>
      simp [hne, h0, hs]

/-- C2 witness: a 404 response and a timeout error. -/
theorem check_failure_outcomes_witness :
    classify (check_tickets (.ok ⟨404, [], "not found"⟩)) = .failure (some 404) "not found" ∧
    error_details_for (some 404) = "HTTP Status: " ++ toString (404 : Nat) ∧
    (perform_check ⟨false, none⟩ none "T" (.ok ⟨404, [], "not found"⟩)).1.chatMessages
      = [failure_chat_message "T" ("HTTP Status: " ++ toString (404 : Nat))] ∧
    classify (check_tickets (.error "timeout")) = .failure none "timeout" :=
  check_failure_outcomes ⟨404, [], "not found"⟩ "timeout" "T" ⟨false, none⟩ none
    (by decide) (by decide)

/-- C3: whatever the silent flag reads (the `bot_data` entry is universally
quantified, so it has no effect), a tick whose outcome is `Failure` sends
exactly one chat message and attempts exactly one email, and a tick whose
outcome is `TicketsAvailable` sends exactly one chat message and attempts
exactly one email. -/
theorem notify_failure_available_counts (env : MailEnv) (bot_data : Option Bool)
    (now : String) (fetch : Except String Response) :
    ((∃ sc d, classify (check_tickets fetch) = .failure sc d) →
      (perform_check env bot_data now fetch).1.chatMessages.length = 1 ∧
      (perform_check env bot_data now fetch).1.emailAttempts.length = 1) ∧
    (classify (check_tickets fetch) = .ticketsAvailable →
      (perform_check env bot_data now fetch).1.chatMessages.length = 1 ∧
      (perform_check env bot_data now fetch).1.emailAttempts.length = 1) := by
  cases fetch with
  | error e =>
      constructor
      · intro _
        simp only [perform_check, check_tickets]
        cases hs : send_email_notification env failure_email_subject
            (failure_email_body now (error_details_for none) (e.take 500)) <;>
          simp [hs]
      · intro hc
        simp [check_tickets, classify] at hc
  | ok r =>
      by_cases h200 : r.status_code = 200
      · cases hf : (find_sold_out_string r.textNodes).isNone
        · constructor
          · rintro ⟨sc, d, hc⟩
            simp [check_tickets, classify, h200, hf] at hc
          · intro hc
            simp [check_tickets, classify, h200, hf] at hc
        · constructor
          · rintro ⟨sc, d, hc⟩
            simp [check_tickets, classify, h200, hf] at hc
          · intro _
            simp only [perform_check, check_tickets, h200, hf]
            cases hs : send_email_notification env success_email_subject
                success_email_body <;>
              simp [h200, hf, hs]
      · constructor
        · intro _
          simp only [perform_check, check_tickets, h200]
          cases hs : send_email_notification env failure_email_subject
              (failure_email_body now (error_details_for (some r.status_code))
                (r.text.take 500)) <;>
            simp [h200, hs]
        · intro hc
          simp [check_tickets, classify, h200] at hc

/-- C3 witness: with silent mode ON, a network-error tick still sends one
chat message and attempts one email. -/
theorem notify_failure_available_counts_witness :
    (perform_check ⟨false, none⟩ (some true) "T" (.error "boom")).1.chatMessages.length = 1 ∧
    (perform_check ⟨false, none⟩ (some true) "T" (.error "boom")).1.emailAttempts.length = 1 :=
  (notify_failure_available_counts ⟨false, none⟩ (some true) "T" (.error "boom")).1
    ⟨none, "boom", rfl⟩

/-- C4: a tick whose outcome is `SoldOut` sends nothing at all when the
silent flag reads true, and exactly one chat message with no email attempt
(and no escaping exception) when it reads false. -/
theorem notify_sold_out_silent (env : MailEnv) (bot_data : Option Bool)
    (now : String) (fetch : Except String Response) (sc : Nat)
    (h : classify (check_tickets fetch) = .soldOut sc) :
    (read_is_silent bot_data = true →
      perform_check env bot_data now fetch = (⟨[], []⟩, none)) ∧
    (read_is_silent bot_data = false →
      (perform_check env bot_data now fetch).1.chatMessages.length = 1 ∧
      (perform_check env bot_data now fetch).1.emailAttempts = [] ∧
      (perform_check env bot_data now fetch).2 = none) := by
  cases fetch with
  | error e => simp [check_tickets, classify] at h
  | ok r =>
      by_cases h200 : r.status_code = 200
      · cases hf : (find_sold_out_string r.textNodes).isNone
        · constructor
          · intro hsil
            simp [perform_check, check_tickets, h200, hf, hsil]
          · intro hsil
            simp only [read_is_silent] at hsil
            simp [perform_check, check_tickets, h200, hf, hsil, read_is_silent]
        · simp [check_tickets, classify, h200, hf] at h
      · simp [check_tickets, classify, h200] at h

/-- C4 witness: a sold-out 200 response with silent mode ON produces no
notifications at all. -/
theorem notify_sold_out_silent_witness :
    perform_check ⟨false, none⟩ (some true) "T" (.ok ⟨200, [SOLD_OUT_TEXT], "b"⟩)
      = (⟨[], []⟩, none) :=
  (notify_sold_out_silent ⟨false, none⟩ (some true) "T"
      (.ok ⟨200, [SOLD_OUT_TEXT], "b"⟩) 200 (by decide)).1 rfl

end BaselBot
